import Mathlib

/-!
Verification of the region-provisioning pipeline in
`provision/stack_creator.go` (porter).

The Go source is shallowly embedded below: pure helper functions become
Lean functions; the AWS S3 / CloudFormation effects become explicit
state passing over small world models; machine integers are `Nat`/`Int`
with explicit reductions modulo powers of two where overflow matters.
The external `crypto/sha256` and `encoding/hex` collaborators are
embedded by their standard semantics (FIPS 180-4, lowercase hex).
-/

namespace Porter

/-! ### Bytes and 32-bit words -/

/-- A byte, as consumed from the payload file (`[]byte` in Go). -/
abbrev Byte := Fin 256

/-- Reduce modulo 2^32: Go `uint32` arithmetic wraps. -/
def w32 (n : Nat) : Nat := n % 4294967296

/-- Rotate a 32-bit word right by `n` bits (`bits.RotateLeft32` dual). -/
def rotr32 (n x : Nat) : Nat := w32 ((x >>> n) ||| (x <<< (32 - n)))

/-! ### SHA-256 (external collaborator `crypto/sha256`, FIPS 180-4) -/

/-- The 64 SHA-256 round constants (decimal renderings of the FIPS
180-4 words). -/
def sha256K : List Nat :=
  [1116352408, 1899447441, 3049323471, 3921009573,
   961987163, 1508970993, 2453635748, 2870763221,
   3624381080, 310598401, 607225278, 1426881987,
   1925078388, 2162078206, 2614888103, 3248222580,
   3835390401, 4022224774, 264347078, 604807628,
   770255983, 1249150122, 1555081692, 1996064986,
   2554220882, 2821834349, 2952996808, 3210313671,
   3336571891, 3584528711, 113926993, 338241895,
   666307205, 773529912, 1294757372, 1396182291,
   1695183700, 1986661051, 2177026350, 2456956037,
   2730485921, 2820302411, 3259730800, 3345764771,
   3516065817, 3600352804, 4094571909, 275423344,
   430227734, 506948616, 659060556, 883997877,
   958139571, 1322822218, 1537002063, 1747873779,
   1955562222, 2024104815, 2227730452, 2361852424,
   2428436474, 2756734187, 3204031479, 3329325298]

/-- SHA-256 working state: eight 32-bit words. -/
structure Hash8 where
  a : Nat
  b : Nat
  c : Nat
  d : Nat
  e : Nat
  f : Nat
  g : Nat
  h : Nat
deriving DecidableEq

/-- SHA-256 initial hash value (decimal renderings of the FIPS 180-4
words). -/
def sha256Init : Hash8 :=
  ⟨1779033703, 3144134277, 1013904242, 2773480762,
   1359893119, 2600822924, 528734635, 1541459225⟩

/-- Big-endian byte rendering of `n`, `numBytes` bytes wide. -/
def toBytesBE (numBytes : Nat) (n : Nat) : List Nat :=
  (List.range numBytes).map (fun i => (n >>> (8 * (numBytes - 1 - i))) % 256)

/-- FIPS 180-4 padding: append `0x80`, zeros, then the 64-bit big-endian
bit length, so the total length is a multiple of 64 bytes. -/
def sha256Pad (msg : List Nat) : List Nat :=
  let len := msg.length
  let r := (len + 1) % 64
  let zeros := (56 + 64 - r) % 64
  msg ++ [0x80] ++ List.replicate zeros 0 ++ toBytesBE 8 ((8 * len) % 18446744073709551616)

/-- Split a byte list into 64-byte blocks; the first argument is
structural-recursion fuel, one unit per block. -/
def chunks64Aux : Nat → List Nat → List (List Nat)
  | 0, _ => []
  | _, [] => []
  | fuel + 1, l => l.take 64 :: chunks64Aux fuel (l.drop 64)

/-- Split a byte list into 64-byte blocks (`l.length` units of fuel are
always enough, since each block consumes at least one byte). -/
def chunks64 (l : List Nat) : List (List Nat) :=
  chunks64Aux l.length l

/-- Interpret four bytes as a big-endian 32-bit word. -/
def wordBE (b0 b1 b2 b3 : Nat) : Nat :=
  b0 * 16777216 + b1 * 65536 + b2 * 256 + b3

/-- The sixteen 32-bit words of one 64-byte block (big-endian). -/
def blockWords : List Nat → List Nat
  | b0 :: b1 :: b2 :: b3 :: rest => wordBE b0 b1 b2 b3 :: blockWords rest
  | _ => []

/-- Small sigma 0: `rotr 7 xor rotr 18 xor shr 3`. -/
def ssig0 (x : Nat) : Nat := rotr32 7 x ^^^ rotr32 18 x ^^^ (x >>> 3)

/-- Small sigma 1: `rotr 17 xor rotr 19 xor shr 10`. -/
def ssig1 (x : Nat) : Nat := rotr32 17 x ^^^ rotr32 19 x ^^^ (x >>> 10)

/-- Extend sixteen schedule words to sixty-four. -/
def sha256Schedule (w16 : List Nat) : List Nat :=
  (List.range 48).foldl
    (fun w _ =>
      let i := w.length
      w ++ [w32 (ssig1 (w.getD (i - 2) 0) + w.getD (i - 7) 0 +
                 ssig0 (w.getD (i - 15) 0) + w.getD (i - 16) 0)])
    w16

/-- One SHA-256 compression round with round constant `k` and schedule
word `w`. -/
def sha256Round (st : Hash8) (k w : Nat) : Hash8 :=
  let s1 := rotr32 6 st.e ^^^ rotr32 11 st.e ^^^ rotr32 25 st.e
  let ch := (st.e &&& st.f) ^^^ ((st.e ^^^ 0xffffffff) &&& st.g)
  let temp1 := w32 (st.h + s1 + ch + k + w)
  let s0 := rotr32 2 st.a ^^^ rotr32 13 st.a ^^^ rotr32 22 st.a
  let maj := (st.a &&& st.b) ^^^ (st.a &&& st.c) ^^^ (st.b &&& st.c)
  let temp2 := w32 (s0 + maj)
  ⟨w32 (temp1 + temp2), st.a, st.b, st.c, w32 (st.d + temp1), st.e, st.f, st.g⟩

/-- Compress one 64-byte block into the running hash state. -/
def sha256Block (st : Hash8) (block : List Nat) : Hash8 :=
  let w := sha256Schedule (blockWords block)
  let fin := (sha256K.zip w).foldl (fun s kw => sha256Round s kw.1 kw.2) st
  ⟨w32 (st.a + fin.a), w32 (st.b + fin.b), w32 (st.c + fin.c), w32 (st.d + fin.d),
   w32 (st.e + fin.e), w32 (st.f + fin.f), w32 (st.g + fin.g), w32 (st.h + fin.h)⟩

/-- SHA-256 digest of a byte list, as 32 bytes (`sha256.Sum256`). -/
def sha256Bytes (msg : List Nat) : List Nat :=
  let st := (chunks64 (sha256Pad msg)).foldl sha256Block sha256Init
  toBytesBE 4 st.a ++ toBytesBE 4 st.b ++ toBytesBE 4 st.c ++ toBytesBE 4 st.d ++
  toBytesBE 4 st.e ++ toBytesBE 4 st.f ++ toBytesBE 4 st.g ++ toBytesBE 4 st.h

/-- Lowercase hex digit for `n < 16` (`encoding/hex` alphabet). -/
def hexDigit (n : Nat) : Char :=
  if n < 10 then Char.ofNat (48 + n) else Char.ofNat (87 + n)

/-- Two lowercase hex characters for one byte. -/
def hexByte (n : Nat) : List Char := [hexDigit (n / 16 % 16), hexDigit (n % 16)]

/-- `hex.EncodeToString`: lowercase hex rendering of a byte list. -/
def hexEncodeToString (bs : List Nat) : String :=
  ⟨bs.foldr (fun b acc => hexByte b ++ acc) []⟩

/-- The checksum computed at stack_creator.go:106-107:
`hex.EncodeToString(sha256.Sum256(payloadBytes)[:])`. -/
def sha256Hex (msg : List Byte) : String :=
  hexEncodeToString (sha256Bytes (msg.map Fin.val))

/-! ### Data model (`conf.Config`, `conf.Environment`, `conf.Region`,
`provision_state.Region`) -/

/-- The fields of `conf.Config` used by the stack creator. -/
structure Config where
  serviceName : String
  serviceVersion : String
deriving DecidableEq

/-- The fields of `conf.Environment` used by the stack creator. -/
structure Environment where
  name : String
deriving DecidableEq

/-- The fields of `conf.Region` used by the stack creator.
`sseKMSKeyId` models the `*string` field `SSEKMSKeyId` (`none` = nil). -/
structure Region where
  name : String
  s3Bucket : String
  sseKMSKeyId : Option String
deriving DecidableEq

/-- The caller-owned `provision_state.Region` record mutated by
`createUpdateStackForRegion` (field `StackId`). -/
structure RegionState where
  stackId : String
deriving DecidableEq

/-! ### Storage-key derivation (`s3KeyRoot`, stack_creator.go:284-296) -/

/-- `s3KeyOptTemplate = 1 << iota` (stack_creator.go:65). -/
def s3KeyOptTemplate : Nat := 1

/-- `s3KeyOptDeployment` (stack_creator.go:66). -/
def s3KeyOptDeployment : Nat := 2

/-- `s3KeyRoot` (stack_creator.go:284-296). The Go function panics when
neither flag bit is set; that is modelled by `none`.  Otherwise it
returns `prefix/ServiceName/environment.Name/ServiceVersion`. -/
def s3KeyRoot (config : Config) (environment : Environment) (prefixOpt : Nat) :
    Option String :=
  let pfx : Option String :=
    if prefixOpt &&& s3KeyOptTemplate == s3KeyOptTemplate then
      some "porter-template"
    else if prefixOpt &&& s3KeyOptDeployment == s3KeyOptDeployment then
      some "porter-deployment"
    else
      none
  pfx.map (fun p =>
    p ++ "/" ++ config.serviceName ++ "/" ++ environment.name ++ "/" ++
      config.serviceVersion)

/-- The service-payload key of stack_creator.go:109:
`fmt.Sprintf("%s/%s.tar", recv.s3KeyRoot(s3KeyOptDeployment), checksum)`
with `checksum = hex(sha256(payloadBytes))`. -/
def servicePayloadKey (config : Config) (environment : Environment)
    (payloadBytes : List Byte) : String :=
  (s3KeyRoot config environment s3KeyOptDeployment).getD "" ++ "/" ++
    sha256Hex payloadBytes ++ ".tar"

/-! ### Probe outcomes and classification (stack_creator.go:116-129) -/

/-- Outcome of the `HeadObject` probe: either a response with an
optional `ContentLength` (`*int64`, `none` = nil), or an error whose
`Error()` string is given. -/
inductive HeadResult where
  | ok (contentLength : Option Int)
  | err (msg : String)
deriving DecidableEq

/-- Does `pat` occur as a contiguous sublist of `l`? -/
def listContains : List Char → List Char → Bool
  | l, pat =>
    if pat.isPrefixOf l then true
    else
      match l with
      | [] => false
      | _ :: rest => listContains rest pat

/-- `strings.Contains s pat`. -/
def strContains (s pat : String) : Bool :=
  listContains s.toList pat.toList

/-- How a probe-error string steers uploadServicePayload: the code tests
`strings.Contains(err.Error(), "404")` first (fall through to the
upload), and only on other errors tests `"403"` (log a permissions
diagnostic and fail).  Errors matching neither are `other`. -/
inductive ProbeClass where
  | notFound
  | forbidden
  | other
deriving DecidableEq

/-- Classification of a probe-error string, read off the branch
structure at stack_creator.go:123-128. -/
def classifyProbeError (msg : String) : ProbeClass :=
  if strContains msg "404" then .notFound
  else if strContains msg "403" then .forbidden
  else .other

/-! ### uploadServicePayload (stack_creator.go:93-155) -/

/-- Result of one staging attempt: the receiver fields
`servicePayloadChecksum` / `servicePayloadKey` that were set, the
returned `success`, and whether `s3Manager.Upload` was invoked. -/
structure StageResult where
  checksum : String
  key : String
  success : Bool
  didUpload : Bool
deriving DecidableEq

/-- The probe-and-upload decision logic of stack_creator.go:116-154,
with the probe outcome and the upload success as inputs:
a response with positive `ContentLength` is the idempotent fast path;
a nil or non-positive `ContentLength` falls through to the upload;
an error containing "404" falls through to the upload;
any other error fails without attempting the upload. -/
def stagePayloadStep (checksum key : String) (probe : HeadResult)
    (uploadOk : Bool) : StageResult :=
  match probe with
  | .ok contentLength =>
    match contentLength with
    | some n => if 0 < n then ⟨checksum, key, true, false⟩
                else ⟨checksum, key, uploadOk, true⟩
    | none => ⟨checksum, key, uploadOk, true⟩
  | .err msg =>
    if strContains msg "404" then ⟨checksum, key, uploadOk, true⟩
    else ⟨checksum, key, false, false⟩

/-- A model of the destination S3 bucket: objects with their
`ContentLength`, plus whether a network upload would succeed. -/
structure S3 where
  objects : List (String × Int)
  uploadOk : Bool
deriving DecidableEq

/-- `HeadObject` against the bucket model: a present object yields a
response carrying its length; a missing key yields the SDK's 404
error. -/
def s3Head (s : S3) (key : String) : HeadResult :=
  match s.objects.lookup key with
  | some n => .ok (some n)
  | none => .err "NotFound: Not Found status code: 404"

/-- A successful `Upload` stores the body; its `ContentLength` is the
body's byte count. -/
def s3Put (s : S3) (key : String) (len : Int) : S3 :=
  ⟨(key, len) :: s.objects, s.uploadOk⟩

/-- `uploadServicePayload` (stack_creator.go:93-155) against the bucket
model.  `payloadFile` is the result of `ioutil.ReadFile` on the payload
path (`none` = read error, which returns zero values and failure). -/
def uploadServicePayload (config : Config) (environment : Environment)
    (s : S3) (payloadFile : Option (List Byte)) : StageResult × S3 :=
  match payloadFile with
  | none => (⟨"", "", false, false⟩, s)
  | some payloadBytes =>
    let checksum := sha256Hex payloadBytes
    let key := servicePayloadKey config environment payloadBytes
    let r := stagePayloadStep checksum key (s3Head s key) s.uploadOk
    (r, if r.didUpload && s.uploadOk then s3Put s key payloadBytes.length else s)

/-! ### createUpdateStackForRegion (stack_creator.go:69-91) -/

/-- Outcome of one `createUpdateStackForRegion` run: the (possibly
updated) region state, the returned success, and which later stages
were invoked at all. -/
structure RunResult where
  state : RegionState
  success : Bool
  ranUploadSecrets : Bool
  ranCreateStack : Bool
deriving DecidableEq

/-- `createUpdateStackForRegion` (stack_creator.go:69-91), parameterized
by the outcomes of its three stages: `payloadStage` is
`uploadServicePayload` (`some checksum` on success), `secretsStage` is
`uploadSecrets` applied to that checksum, and `createStackStage` is
`createStack` (`some stackId` on success).  `regionState.StackId` is
assigned only after all three succeed. -/
def createUpdateStackForRegion (payloadStage : Option String)
    (secretsStage : String → Bool) (createStackStage : Option String)
    (regionState : RegionState) : RunResult :=
  match payloadStage with
  | none => ⟨regionState, false, false, false⟩
  | some checksum =>
    if secretsStage checksum then
      match createStackStage with
      | none => ⟨regionState, false, true, true⟩
      | some stackId => ⟨⟨stackId⟩, true, true, true⟩
    else ⟨regionState, false, true, false⟩

/-! ### Templates and mutateTemplate (stack_creator.go:266-282) -/

/-- The fields of `cfn.Template` visible to this file: the
`Description` string plus the resource map (name to serialized
definition). -/
structure Template where
  description : String
  resources : List (String × String)
deriving DecidableEq

/-- Modelled from the spec: `cfn.NewTemplate` lives in the `cfn`
package, outside this file; per the spec, with no override document
assembly starts from an empty `Template`. -/
def newTemplate : Template := ⟨"", []⟩

/-- The three sub-steps of `mutateTemplate`, in the order they run. -/
inductive MutStep where
  | setDescription
  | ensureResources
  | mapResources
deriving DecidableEq

/-- The first sub-step of `mutateTemplate` (stack_creator.go:268):
`template.Description = fmt.Sprintf("%s (powered by porter %s)", ...)`. -/
def withPorterDescription (serviceName porterVersion : String)
    (template : Template) : Template :=
  { template with
    description := serviceName ++ " (powered by porter " ++ porterVersion ++ ")" }

/-- `mutateTemplate` (stack_creator.go:266-282), parameterized by the
`ensureResources` and `mapResources` methods (defined elsewhere in the
repository; each mutates the template and reports success, modelled as
`Option Template`).  Returns the mutated template (`none` on failure)
together with the list of sub-steps that executed, in order. -/
def mutateTemplate (serviceName porterVersion : String)
    (ensureResources mapResources : Template → Option Template)
    (template : Template) : Option Template × List MutStep :=
  let t1 := withPorterDescription serviceName porterVersion template
  match ensureResources t1 with
  | none => (none, [.setDescription, .ensureResources])
  | some t2 =>
    match mapResources t2 with
    | none => (none, [.setDescription, .ensureResources, .mapResources])
    | some t3 => (some t3, [.setDescription, .ensureResources, .mapResources])

/-! ### createTemplate (stack_creator.go:218-264) -/

/-- The external collaborators of `createTemplate`:
`GetStackDefinitionPath` (may fail), `os.Open` (`none` = open error),
`json.Decode` of the opened document into a template (`none` = parse
error), the `cfn` resource expansion `ParseResources` (cannot fail in
the source), the two mutation methods, and `json.Marshal` (`none` =
marshal error). -/
structure TemplateEnv where
  stackDefinitionPath : Except String String
  openFile : String → Option String
  jsonDecodeTemplate : String → Option Template
  parseResources : Template → Template
  ensureResources : Template → Option Template
  mapResources : Template → Option Template
  jsonMarshal : Template → Option (List Byte)

/-- The assembly step of `createTemplate` (stack_creator.go:221-247):
start from `cfn.NewTemplate()`; with a non-empty override path, open
and JSON-decode the file into the template, either failure being fatal. -/
def assembleTemplate (env : TemplateEnv) (stackDefinitionPath : String) :
    Option Template :=
  if stackDefinitionPath ≠ "" then
    match env.openFile stackDefinitionPath with
    | none => none
    | some doc => env.jsonDecodeTemplate doc
  else
    some newTemplate

/-- `createTemplate` (stack_creator.go:218-264): resolve the override
path, assemble, expand resources, mutate, and serialize exactly once.
Returns the template bytes, or `none` when any step fails. -/
def createTemplate (serviceName porterVersion : String) (env : TemplateEnv) :
    Option (List Byte) :=
  match env.stackDefinitionPath with
  | .error _ => none
  | .ok path =>
    match assembleTemplate env path with
    | none => none
    | some t =>
      let t := env.parseResources t
      match (mutateTemplate serviceName porterVersion
              env.ensureResources env.mapResources t).1 with
      | none => none
      | some t2 => env.jsonMarshal t2

/-! ### Upload inputs (`s3manager.UploadInput`) -/

/-- The `s3manager.UploadInput` fields set anywhere in this file
(`Option` models the nil-able pointer fields). -/
structure UploadInput where
  bucket : String
  key : String
  body : List Byte
  contentType : Option String
  contentEncoding : Option String
  storageClass : Option String
  sseKMSKeyId : Option String
  serverSideEncryption : Option String
deriving DecidableEq

/-- The upload request built by `uploadServicePayload`
(stack_creator.go:131-138).  No server-side-encryption field is set. -/
def payloadUploadInput (region : Region) (key : String)
    (payloadBytes : List Byte) : UploadInput :=
  { bucket := region.s3Bucket
    key := key
    body := payloadBytes
    contentType := some "application/x-tar"
    contentEncoding := some "gzip"
    storageClass := some "STANDARD_IA"
    sseKMSKeyId := none
    serverSideEncryption := none }

/-- The upload request built by `createStack`
(stack_creator.go:177-187): `SSEKMSKeyId` and
`ServerSideEncryption = "aws:kms"` are set exactly when the region
configures an SSE-KMS key. -/
def templateUploadInput (region : Region) (key : String)
    (templateBytes : List Byte) : UploadInput :=
  let base : UploadInput :=
    { bucket := region.s3Bucket
      key := key
      body := templateBytes
      contentType := some "application/json"
      contentEncoding := none
      storageClass := none
      sseKMSKeyId := none
      serverSideEncryption := none }
  match region.sseKMSKeyId with
  | some k => { base with sseKMSKeyId := some k,
                          serverSideEncryption := some "aws:kms" }
  | none => base

/-! ### createStack (stack_creator.go:157-216) -/

/-- The parameter record handed to the create/update strategy
(`CfnApiInput`). -/
structure CfnApiInput where
  environment : String
  region : String
  secretsKey : String
  secretsLoc : String
  templateUrl : String
deriving DecidableEq

/-- Observable side effects of one `createStack` run, in order:
the successful `ioutil.WriteFile` of the local template mirror, the
invocation of the remote template upload, and the invocation of the
`cfnAPI` strategy. -/
inductive StackEvent where
  | wroteLocalTemplate
  | uploadTemplateAttempt
  | cfnDispatchAttempt
deriving DecidableEq

/-- The external collaborators of `createStack`: the result of
`createTemplate`, whether the local `WriteFile` of the template mirror
succeeds, the region, whether the remote upload succeeds, and the
injected create/update strategy (`none` = dispatch failure). -/
structure StackEnv where
  createTemplateResult : Option (List Byte)
  writeLocalOk : Bool
  region : Region
  uploadOk : Bool
  cfnAPI : CfnApiInput → Option String

/-- `createStack` (stack_creator.go:157-216): build the template, write
the local mirror, upload the template remotely, and dispatch; each
failure aborts.  Returns the stack id (`none` on failure) and the event
trace. -/
def createStack (config : Config) (environment : Environment)
    (env : StackEnv) (secretsKey secretsLocation : String) :
    Option String × List StackEvent :=
  match env.createTemplateResult with
  | none => (none, [])
  | some templateBytes =>
    if env.writeLocalOk then
      let checksum := sha256Hex templateBytes
      let templateS3Key :=
        (s3KeyRoot config environment s3KeyOptTemplate).getD "" ++ "/" ++ checksum
      if env.uploadOk then
        let templateUrl :=
          "https://s3.amazonaws.com/" ++ env.region.s3Bucket ++ "/" ++ templateS3Key
        match env.cfnAPI ⟨environment.name, env.region.name, secretsKey,
                          secretsLocation, templateUrl⟩ with
        | some stackId =>
          (some stackId,
           [.wroteLocalTemplate, .uploadTemplateAttempt, .cfnDispatchAttempt])
        | none =>
          (none,
           [.wroteLocalTemplate, .uploadTemplateAttempt, .cfnDispatchAttempt])
      else (none, [.wroteLocalTemplate, .uploadTemplateAttempt])
    else (none, [])

/-! ### Key-scheme parsing helpers -/

/-- Split a character list at its first slash: the characters before
it, and everything after it. -/
def chopSlash : List Char → List Char × List Char
  | [] => ([], [])
  | c :: cs =>
    if c = '/' then ([], cs)
    else
      let p := chopSlash cs
      (c :: p.1, p.2)

/-- A string with no slash character (a storage-key component that
cannot be confused with the scheme's separators). -/
def slashFree (s : String) : Bool := s.data.all (fun c => c != '/')

/-! ## Claims -/

/-- C2: if artifact staging (`uploadServicePayload`) fails, secrets
staging and stack creation/dispatch never execute and the caller-owned
region state is unmodified; the `StackId` field is written only when
every stage has succeeded. -/
theorem createUpdateStackForRegion_failFast (payloadStage : Option String)
    (secretsStage : String → Bool) (createStackStage : Option String)
    (st : RegionState) :
    (payloadStage = none →
      createUpdateStackForRegion payloadStage secretsStage createStackStage st =
        ⟨st, false, false, false⟩) ∧
    ((createUpdateStackForRegion payloadStage secretsStage createStackStage st).success
        = false →
      (createUpdateStackForRegion payloadStage secretsStage createStackStage st).state
        = st) ∧
    ((createUpdateStackForRegion payloadStage secretsStage createStackStage st).success
        = true →
      ∃ checksum stackId, payloadStage = some checksum ∧
        secretsStage checksum = true ∧ createStackStage = some stackId ∧
        (createUpdateStackForRegion payloadStage secretsStage createStackStage st).state
          = ⟨stackId⟩) := by
  cases payloadStage with
  | none => simp [createUpdateStackForRegion]
  | some checksum =>
    by_cases hsec : secretsStage checksum = true
    · cases createStackStage with
      | none => simp [createUpdateStackForRegion, hsec]
      | some sid => simp [createUpdateStackForRegion, hsec]
    · simp only [Bool.not_eq_true] at hsec
      cases createStackStage with
      | none => simp [createUpdateStackForRegion, hsec]
      | some sid => simp [createUpdateStackForRegion, hsec]

/-- C2 witness: a concrete failing artifact stage leaves everything
untouched and runs nothing else. -/
theorem createUpdateStackForRegion_failFast_witness :
    createUpdateStackForRegion none (fun _ => true) (some "stack-123") ⟨"old"⟩ =
      ⟨⟨"old"⟩, false, false, false⟩ :=
  (createUpdateStackForRegion_failFast none (fun _ => true) (some "stack-123")
    ⟨"old"⟩).1 rfl

/-- C3: a probe error the code classifies as not-found (contains "404")
leads to attempting the upload, while one it classifies as forbidden
(contains "403" and not "404": the branch at stack_creator.go:123-128)
leads to immediate failure without attempting the upload; the two
classes are distinct constructors of `ProbeClass`. -/
theorem stagePayloadStep_probeClassification (checksum key msg : String)
    (uploadOk : Bool) :
    (classifyProbeError msg = .notFound →
      stagePayloadStep checksum key (.err msg) uploadOk =
        ⟨checksum, key, uploadOk, true⟩) ∧
    (classifyProbeError msg = .forbidden →
      stagePayloadStep checksum key (.err msg) uploadOk =
        ⟨checksum, key, false, false⟩) := by
  by_cases h404 : strContains msg "404" = true
  · simp [classifyProbeError, stagePayloadStep, h404]
  · simp only [Bool.not_eq_true] at h404
    by_cases h403 : strContains msg "403" = true
    · simp [classifyProbeError, stagePayloadStep, h404, h403]
    · simp only [Bool.not_eq_true] at h403
      simp [classifyProbeError, stagePayloadStep, h404, h403]

/-- C3 witness: a concrete 404 error is uploaded past, a concrete 403
error fails without an upload attempt. -/
theorem stagePayloadStep_probeClassification_witness :
    stagePayloadStep "c" "k" (.err "NotFound: status code: 404") true =
      ⟨"c", "k", true, true⟩ ∧
    stagePayloadStep "c" "k" (.err "Forbidden: status code: 403") true =
      ⟨"c", "k", false, false⟩ :=
  ⟨(stagePayloadStep_probeClassification "c" "k" "NotFound: status code: 404"
      true).1 (by decide),
   (stagePayloadStep_probeClassification "c" "k" "Forbidden: status code: 403"
      true).2 (by decide)⟩

/-- C9 counterexample: the flag value 3 selects BOTH namespace classes
(both bit tests succeed), yet `s3KeyRoot` does not panic — it returns
the template prefix.  So it is not true that only a flag selecting
exactly one class yields a non-panicking prefix. -/
theorem s3KeyRoot_bothFlags_counterexample :
    (3 &&& s3KeyOptTemplate == s3KeyOptTemplate) = true ∧
    (3 &&& s3KeyOptDeployment == s3KeyOptDeployment) = true ∧
    s3KeyRoot ⟨"svc", "1.0"⟩ ⟨"prod"⟩ 3 = some "porter-template/svc/prod/1.0" := by
  decide

/-- C9 amended: `s3KeyRoot` panics exactly when neither class bit is
selected; when the template bit is selected (alone or together with the
deployment bit) it returns the template prefix, and when only the
deployment bit is selected it returns the deployment prefix. -/
theorem s3KeyRoot_flagBehavior (config : Config) (environment : Environment)
    (prefixOpt : Nat) :
    (s3KeyRoot config environment prefixOpt = none ↔
      (prefixOpt &&& s3KeyOptTemplate ≠ s3KeyOptTemplate ∧
       prefixOpt &&& s3KeyOptDeployment ≠ s3KeyOptDeployment)) ∧
    (prefixOpt &&& s3KeyOptTemplate = s3KeyOptTemplate →
      s3KeyRoot config environment prefixOpt =
        some ("porter-template" ++ "/" ++ config.serviceName ++ "/" ++
          environment.name ++ "/" ++ config.serviceVersion)) ∧
    (prefixOpt &&& s3KeyOptTemplate ≠ s3KeyOptTemplate →
      prefixOpt &&& s3KeyOptDeployment = s3KeyOptDeployment →
      s3KeyRoot config environment prefixOpt =
        some ("porter-deployment" ++ "/" ++ config.serviceName ++ "/" ++
          environment.name ++ "/" ++ config.serviceVersion)) := by
  by_cases h1 : prefixOpt &&& s3KeyOptTemplate = s3KeyOptTemplate
  · simp [s3KeyRoot, h1]
  · by_cases h2 : prefixOpt &&& s3KeyOptDeployment = s3KeyOptDeployment
    · simp [s3KeyRoot, h1, h2]
    · simp [s3KeyRoot, h1, h2]

/-- C9 amended witness: concrete flags 0, 1, 2 behave as stated. -/
theorem s3KeyRoot_flagBehavior_witness :
    s3KeyRoot ⟨"svc", "1.0"⟩ ⟨"prod"⟩ 0 = none ∧
    s3KeyRoot ⟨"svc", "1.0"⟩ ⟨"prod"⟩ 1 =
      some ("porter-template" ++ "/" ++ "svc" ++ "/" ++ "prod" ++ "/" ++ "1.0") ∧
    s3KeyRoot ⟨"svc", "1.0"⟩ ⟨"prod"⟩ 2 =
      some ("porter-deployment" ++ "/" ++ "svc" ++ "/" ++ "prod" ++ "/" ++ "1.0") :=
  ⟨(s3KeyRoot_flagBehavior ⟨"svc", "1.0"⟩ ⟨"prod"⟩ 0).1.mpr (by decide),
   (s3KeyRoot_flagBehavior ⟨"svc", "1.0"⟩ ⟨"prod"⟩ 1).2.1 (by decide),
   (s3KeyRoot_flagBehavior ⟨"svc", "1.0"⟩ ⟨"prod"⟩ 2).2.2 (by decide) (by decide)⟩

/-- C10: the service-payload upload request never sets
server-side-encryption parameters, whatever the region configures;
only the template upload request applies the region's `SSEKMSKeyId`
with `aws:kms`, and it does so exactly when the key is present. -/
theorem uploadInputs_encryption (region : Region) (key1 key2 : String)
    (payloadBytes templateBytes : List Byte) :
    (payloadUploadInput region key1 payloadBytes).sseKMSKeyId = none ∧
    (payloadUploadInput region key1 payloadBytes).serverSideEncryption = none ∧
    (templateUploadInput region key2 templateBytes).sseKMSKeyId =
      region.sseKMSKeyId ∧
    (templateUploadInput region key2 templateBytes).serverSideEncryption =
      (if region.sseKMSKeyId.isSome then some "aws:kms" else none) := by
  cases h : region.sseKMSKeyId with
  | none => simp [payloadUploadInput, templateUploadInput, h]
  | some k => simp [payloadUploadInput, templateUploadInput, h]

/-- C6: `mutateTemplate` runs its sub-steps in fixed order: the
description is set first (to `serviceName (powered by porter version)`),
then ensure-mandatory-resources runs, and the resource-mapping
transforms run exactly when ensure-mandatory-resources has succeeded
(never before); the first failing sub-step aborts the stage. -/
theorem mutateTemplate_ordering (serviceName porterVersion : String)
    (ensureResources mapResources : Template → Option Template) (t : Template) :
    (withPorterDescription serviceName porterVersion t).description =
      serviceName ++ " (powered by porter " ++ porterVersion ++ ")" ∧
    (mutateTemplate serviceName porterVersion ensureResources mapResources t).2.take 2
      = [.setDescription, .ensureResources] ∧
    (MutStep.mapResources ∈
        (mutateTemplate serviceName porterVersion ensureResources mapResources t).2 ↔
      (ensureResources (withPorterDescription serviceName porterVersion t)).isSome
        = true) ∧
    (ensureResources (withPorterDescription serviceName porterVersion t) = none →
      (mutateTemplate serviceName porterVersion ensureResources mapResources t).1
        = none) ∧
    (∀ t2, ensureResources (withPorterDescription serviceName porterVersion t)
        = some t2 → mapResources t2 = none →
      (mutateTemplate serviceName porterVersion ensureResources mapResources t).1
        = none) := by
  refine ⟨rfl, ?_⟩
  cases hens : ensureResources (withPorterDescription serviceName porterVersion t) with
  | none => simp [mutateTemplate, hens]
  | some t2 =>
    cases hmap : mapResources t2 with
    | none => simp [mutateTemplate, hens, hmap]
    | some t3 => simp [mutateTemplate, hens, hmap]

/-- C6 witness: with a failing ensure step on a concrete template, the
stage aborts and the mapping step never ran. -/
theorem mutateTemplate_ordering_witness :
    (mutateTemplate "svc" "v1" (fun _ => none) (fun t => some t) ⟨"", []⟩).1
      = none :=
  (mutateTemplate_ordering "svc" "v1" (fun _ => none) (fun t => some t)
    ⟨"", []⟩).2.2.2.1 rfl

/-- C7: with an empty override path, assembly starts from the empty
template; with a supplied override path, failure to open the file or to
JSON-decode it makes `createTemplate` return failure with no template
bytes. -/
theorem createTemplate_overridePath (serviceName porterVersion : String)
    (env : TemplateEnv) :
    (assembleTemplate env "" = some newTemplate) ∧
    (∀ path, env.stackDefinitionPath = .ok path → path ≠ "" →
      env.openFile path = none →
      createTemplate serviceName porterVersion env = none) ∧
    (∀ path doc, env.stackDefinitionPath = .ok path → path ≠ "" →
      env.openFile path = some doc → env.jsonDecodeTemplate doc = none →
      createTemplate serviceName porterVersion env = none) := by
  refine ⟨by simp [assembleTemplate], ?_, ?_⟩
  · intro path hpath hne hopen
    simp [createTemplate, hpath, assembleTemplate, hne, hopen]
  · intro path doc hpath hne hopen hdecode
    simp [createTemplate, hpath, assembleTemplate, hne, hopen, hdecode]

/-- C7 witness: a concrete environment whose override file fails to
open produces no template bytes. -/
theorem createTemplate_overridePath_witness :
    createTemplate "svc" "v1"
      ⟨.ok "custom.json", fun _ => none, fun _ => none, id,
       fun t => some t, fun t => some t, fun _ => some []⟩ = none :=
  (createTemplate_overridePath "svc" "v1"
    ⟨.ok "custom.json", fun _ => none, fun _ => none, id,
     fun t => some t, fun t => some t, fun _ => some []⟩).2.1
    "custom.json" rfl (by decide) rfl

/-- C8: in `createStack` the serialized template is written to the
local mirror before the remote upload is attempted (whenever an upload
attempt appears in the trace, the successful local write precedes it),
and a failed local write aborts the stage: no upload, no dispatch, no
stack id. -/
theorem createStack_localMirrorFirst (config : Config)
    (environment : Environment) (env : StackEnv)
    (secretsKey secretsLocation : String) :
    (StackEvent.uploadTemplateAttempt ∈
        (createStack config environment env secretsKey secretsLocation).2 →
      (createStack config environment env secretsKey secretsLocation).2.head? =
        some .wroteLocalTemplate) ∧
    (env.writeLocalOk = false →
      (createStack config environment env secretsKey secretsLocation).1 = none ∧
      StackEvent.uploadTemplateAttempt ∉
        (createStack config environment env secretsKey secretsLocation).2 ∧
      StackEvent.cfnDispatchAttempt ∉
        (createStack config environment env secretsKey secretsLocation).2) := by
  cases hct : env.createTemplateResult with
  | none => simp [createStack, hct]
  | some templateBytes =>
    by_cases hw : env.writeLocalOk = true
    · by_cases hu : env.uploadOk = true
      · cases hcfn : env.cfnAPI ⟨environment.name, env.region.name, secretsKey,
            secretsLocation,
            "https://s3.amazonaws.com/" ++ env.region.s3Bucket ++ "/" ++
              ((s3KeyRoot config environment s3KeyOptTemplate).getD "" ++ "/" ++
                sha256Hex templateBytes)⟩ with
        | none => simp [createStack, hct, hw, hu, hcfn]
        | some sid => simp [createStack, hct, hw, hu, hcfn]
      · simp only [Bool.not_eq_true] at hu
        simp [createStack, hct, hw, hu]
    · simp only [Bool.not_eq_true] at hw
      simp [createStack, hct, hw]

/-- C8 witness: a concrete run with a failing local template write
produces no stack id and neither uploads nor dispatches. -/
theorem createStack_localMirrorFirst_witness :
    (createStack ⟨"svc", "1.0"⟩ ⟨"prod"⟩
        ⟨some [], false, ⟨"us-east-1", "bkt", none⟩, true, fun _ => some "sid"⟩
        "sk" "sl").1 = none ∧
    StackEvent.uploadTemplateAttempt ∉
      (createStack ⟨"svc", "1.0"⟩ ⟨"prod"⟩
        ⟨some [], false, ⟨"us-east-1", "bkt", none⟩, true, fun _ => some "sid"⟩
        "sk" "sl").2 ∧
    StackEvent.cfnDispatchAttempt ∉
      (createStack ⟨"svc", "1.0"⟩ ⟨"prod"⟩
        ⟨some [], false, ⟨"us-east-1", "bkt", none⟩, true, fun _ => some "sid"⟩
        "sk" "sl").2 :=
  (createStack_localMirrorFirst ⟨"svc", "1.0"⟩ ⟨"prod"⟩
    ⟨some [], false, ⟨"us-east-1", "bkt", none⟩, true, fun _ => some "sid"⟩
    "sk" "sl").2 rfl

/-- Helper: when the probe finds the object with positive length,
staging takes the idempotent fast path: success, no upload, no state
change. -/
theorem uploadServicePayload_fastPath (config : Config)
    (environment : Environment) (s : S3) (b : List Byte) (len : Int)
    (hlook : s.objects.lookup (servicePayloadKey config environment b) = some len)
    (hpos : 0 < len) :
    uploadServicePayload config environment s (some b) =
      (⟨sha256Hex b, servicePayloadKey config environment b, true, false⟩, s) := by
  simp [uploadServicePayload, s3Head, hlook, stagePayloadStep, hpos]

/-- Helper: when no object with positive length is present, staging
attempts the upload; on upload success the object is stored with the
payload's byte count as its length. -/
theorem uploadServicePayload_uploadPath (config : Config)
    (environment : Environment) (s : S3) (b : List Byte)
    (hnot : ∀ len, s.objects.lookup (servicePayloadKey config environment b)
      = some len → ¬ 0 < len) :
    uploadServicePayload config environment s (some b) =
      (⟨sha256Hex b, servicePayloadKey config environment b, s.uploadOk, true⟩,
       if s.uploadOk then s3Put s (servicePayloadKey config environment b) b.length
       else s) := by
  cases hl : s.objects.lookup (servicePayloadKey config environment b) with
  | none =>
    have h404 : strContains "NotFound: Not Found status code: 404" "404" = true := by
      decide
    simp [uploadServicePayload, s3Head, hl, stagePayloadStep, h404]
  | some len =>
    have hle : ¬ 0 < len := hnot len hl
    simp [uploadServicePayload, s3Head, hl, stagePayloadStep, hle]

set_option maxRecDepth 10000

/-- C1 counterexample: staging the EMPTY byte sequence twice performs
two uploads.  The first call succeeds and uploads; the stored object
has `ContentLength` 0, so the second call's probe does not report a
positive length and the payload is uploaded again.  The claim's "for
every byte sequence" therefore fails at the empty payload. -/
theorem uploadServicePayload_emptyPayload_counterexample :
    ((uploadServicePayload ⟨"svc", "1.0"⟩ ⟨"prod"⟩ ⟨[], true⟩ (some [])).1.success
        = true) ∧
    ((uploadServicePayload ⟨"svc", "1.0"⟩ ⟨"prod"⟩ ⟨[], true⟩ (some [])).1.didUpload
        = true) ∧
    ((uploadServicePayload ⟨"svc", "1.0"⟩ ⟨"prod"⟩
        (uploadServicePayload ⟨"svc", "1.0"⟩ ⟨"prod"⟩ ⟨[], true⟩ (some [])).2
        (some [])).1.didUpload = true) := by
  decide

/-- C1 amended: for every NON-EMPTY byte sequence, if the first staging
call succeeds then the second staging call on the resulting bucket
state observes the object via a HEAD probe with positive content
length, returns the same storage key and success, and does not invoke
the upload; and if the object was not initially present, the first call
performed the one upload. -/
theorem uploadServicePayload_idempotent (config : Config)
    (environment : Environment) (s : S3) (b : List Byte) (hb : b ≠ [])
    (h1 : (uploadServicePayload config environment s (some b)).1.success = true) :
    (∃ len, s3Head (uploadServicePayload config environment s (some b)).2
        ((uploadServicePayload config environment s (some b)).1.key) =
        .ok (some len) ∧ 0 < len) ∧
    (uploadServicePayload config environment
      (uploadServicePayload config environment s (some b)).2 (some b)).1.success
        = true ∧
    (uploadServicePayload config environment
      (uploadServicePayload config environment s (some b)).2 (some b)).1.key =
      (uploadServicePayload config environment s (some b)).1.key ∧
    (uploadServicePayload config environment
      (uploadServicePayload config environment s (some b)).2 (some b)).1.didUpload
        = false ∧
    (s.objects.lookup ((uploadServicePayload config environment s (some b)).1.key)
        = none →
      (uploadServicePayload config environment s (some b)).1.didUpload = true) := by
  by_cases hfast : ∃ len, s.objects.lookup (servicePayloadKey config environment b)
      = some len ∧ 0 < len
  · obtain ⟨len, hl, hpos⟩ := hfast
    have he := uploadServicePayload_fastPath config environment s b len hl hpos
    rw [he]
    refine ⟨⟨len, by simp [s3Head, hl], hpos⟩, ?_, ?_, ?_, ?_⟩
    · rw [he]
    · rw [he]
    · rw [he]
    · intro h; rw [hl] at h; cases h
  · have hnot : ∀ len, s.objects.lookup (servicePayloadKey config environment b)
        = some len → ¬ 0 < len := by
      intro len hl hpos; exact hfast ⟨len, hl, hpos⟩
    have he := uploadServicePayload_uploadPath config environment s b hnot
    rw [he] at h1
    simp only at h1
    simp only [h1, eq_self_iff_true, if_true] at he
    rw [he]
    have hlen : (0 : Int) < b.length := by
      have := List.length_pos.mpr hb
      exact_mod_cast this
    have hl2 : (s3Put s (servicePayloadKey config environment b)
          b.length).objects.lookup (servicePayloadKey config environment b) =
        some (b.length : Int) := by
      simp [s3Put, List.lookup]
    have he2 := uploadServicePayload_fastPath config environment
      (s3Put s (servicePayloadKey config environment b) b.length) b
      (b.length : Int) hl2 hlen
    rw [he2]
    exact ⟨⟨(b.length : Int), by simp [s3Head, hl2], hlen⟩, rfl, rfl, rfl,
      fun _ => rfl⟩

/-- C1 amended witness: a one-byte payload staged twice against an
empty bucket: one upload, then the fast path with the same key. -/
theorem uploadServicePayload_idempotent_witness :
    (∃ len, s3Head (uploadServicePayload ⟨"svc", "1.0"⟩ ⟨"prod"⟩ ⟨[], true⟩
        (some [0])).2
        ((uploadServicePayload ⟨"svc", "1.0"⟩ ⟨"prod"⟩ ⟨[], true⟩
          (some [0])).1.key) = .ok (some len) ∧ 0 < len) ∧
    (uploadServicePayload ⟨"svc", "1.0"⟩ ⟨"prod"⟩
      (uploadServicePayload ⟨"svc", "1.0"⟩ ⟨"prod"⟩ ⟨[], true⟩ (some [0])).2
      (some [0])).1.success = true ∧
    (uploadServicePayload ⟨"svc", "1.0"⟩ ⟨"prod"⟩
      (uploadServicePayload ⟨"svc", "1.0"⟩ ⟨"prod"⟩ ⟨[], true⟩ (some [0])).2
      (some [0])).1.key =
      (uploadServicePayload ⟨"svc", "1.0"⟩ ⟨"prod"⟩ ⟨[], true⟩ (some [0])).1.key ∧
    (uploadServicePayload ⟨"svc", "1.0"⟩ ⟨"prod"⟩
      (uploadServicePayload ⟨"svc", "1.0"⟩ ⟨"prod"⟩ ⟨[], true⟩ (some [0])).2
      (some [0])).1.didUpload = false ∧
    ((⟨[], true⟩ : S3).objects.lookup
        ((uploadServicePayload ⟨"svc", "1.0"⟩ ⟨"prod"⟩ ⟨[], true⟩
          (some [0])).1.key) = none →
      (uploadServicePayload ⟨"svc", "1.0"⟩ ⟨"prod"⟩ ⟨[], true⟩
        (some [0])).1.didUpload = true) :=
  uploadServicePayload_idempotent ⟨"svc", "1.0"⟩ ⟨"prod"⟩ ⟨[], true⟩ [0]
    (by decide) (by decide)

/-- Helper: the derived service-payload key, flattened to the spec's
key scheme. -/
theorem servicePayloadKey_eq (config : Config) (environment : Environment)
    (b : List Byte) :
    servicePayloadKey config environment b =
      "porter-deployment/" ++ config.serviceName ++ "/" ++ environment.name ++
        "/" ++ config.serviceVersion ++ "/" ++ sha256Hex b ++ ".tar" := rfl

/-- C4: for every payload `b` the deployment storage key is
`porter-deployment/serviceName/environmentName/serviceVersion/digest.tar`
with the digest the lowercase-hex SHA-256 of `b`; in particular for
service svc/1.0 in environment prod it is
`porter-deployment/svc/prod/1.0/digest.tar`, and the derivation is
deterministic in `b`. -/
theorem servicePayloadKey_scheme (serviceName serviceVersion envName : String)
    (b : List Byte) :
    servicePayloadKey ⟨serviceName, serviceVersion⟩ ⟨envName⟩ b =
      "porter-deployment/" ++ serviceName ++ "/" ++ envName ++ "/" ++
        serviceVersion ++ "/" ++ sha256Hex b ++ ".tar" ∧
    servicePayloadKey ⟨"svc", "1.0"⟩ ⟨"prod"⟩ b =
      "porter-deployment/svc/prod/1.0/" ++ sha256Hex b ++ ".tar" ∧
    (∀ b2, b = b2 →
      servicePayloadKey ⟨serviceName, serviceVersion⟩ ⟨envName⟩ b =
        servicePayloadKey ⟨serviceName, serviceVersion⟩ ⟨envName⟩ b2) :=
  ⟨servicePayloadKey_eq ⟨serviceName, serviceVersion⟩ ⟨envName⟩ b, rfl,
   fun _ h => by rw [h]⟩

/-- C4 witness: the scheme instantiated at svc/prod/1.0 and the empty
payload, whose digest is the well-known SHA-256 of the empty string. -/
theorem servicePayloadKey_scheme_witness :
    servicePayloadKey ⟨"svc", "1.0"⟩ ⟨"prod"⟩ [] =
      "porter-deployment/svc/prod/1.0/" ++ sha256Hex [] ++ ".tar" ∧
    servicePayloadKey ⟨"svc", "1.0"⟩ ⟨"prod"⟩ [] =
      servicePayloadKey ⟨"svc", "1.0"⟩ ⟨"prod"⟩ [] :=
  ⟨(servicePayloadKey_scheme "svc" "1.0" "prod" []).2.1,
   (servicePayloadKey_scheme "svc" "1.0" "prod" []).2.2 [] rfl⟩

/-- Helper: `chopSlash` recovers a slash-free segment and the tail. -/
theorem chopSlash_append (a rest : List Char) (ha : ∀ c ∈ a, c ≠ '/') :
    chopSlash (a ++ '/' :: rest) = (a, rest) := by
  induction a with
  | nil => simp [chopSlash]
  | cons x xs ih =>
    have hx : x ≠ '/' := ha x (by simp)
    have ih2 := ih (fun c hc => ha c (by simp [hc]))
    simp [chopSlash, hx, ih2]

/-- Helper: the character-level shape of the derived payload key. -/
theorem servicePayloadKey_data (config : Config) (environment : Environment)
    (b : List Byte) :
    (servicePayloadKey config environment b).data =
      "porter-deployment/".data ++
        (config.serviceName.data ++ '/' ::
          (environment.name.data ++ '/' ::
            (config.serviceVersion.data ++ '/' ::
              ((sha256Hex b).data ++ ".tar".data)))) := by
  rw [servicePayloadKey_eq]
  simp only [String.data_append, List.append_assoc, List.cons_append,
    show ("/" : String).data = ['/'] from rfl, List.singleton_append,
    List.nil_append]

/-- Helper: unpack the `slashFree` boolean. -/
theorem slashFree_forall (s : String) (h : slashFree s = true) :
    ∀ c ∈ s.data, c ≠ '/' := by
  simp only [slashFree, List.all_eq_true, bne_iff_ne] at h
  exact h

/-- C5 counterexample: two artifacts differing in BOTH service name and
environment name derive the SAME storage key, because the components
are joined with unescaped slashes: service "a/b" in environment "c"
collides with service "a" in environment "b/c".  Key derivation is
therefore not injective in the four inputs. -/
theorem servicePayloadKey_collision_counterexample :
    ("a/b" : String) ≠ "a" ∧ ("c" : String) ≠ "b/c" ∧
    servicePayloadKey ⟨"a/b", "1.0"⟩ ⟨"c"⟩ [] =
      servicePayloadKey ⟨"a", "1.0"⟩ ⟨"b/c"⟩ [] := by
  decide

/-- C5 amended: when the service name, environment name, and service
version of both artifacts are slash-free, the derived storage keys
differ whenever those components differ or the content digests differ. -/
theorem servicePayloadKey_injective (c1 c2 : Config) (e1 e2 : Environment)
    (b1 b2 : List Byte)
    (h1 : slashFree c1.serviceName = true) (h2 : slashFree c2.serviceName = true)
    (h3 : slashFree e1.name = true) (h4 : slashFree e2.name = true)
    (h5 : slashFree c1.serviceVersion = true)
    (h6 : slashFree c2.serviceVersion = true)
    (hdiff : c1.serviceName ≠ c2.serviceName ∨ e1.name ≠ e2.name ∨
      c1.serviceVersion ≠ c2.serviceVersion ∨ sha256Hex b1 ≠ sha256Hex b2) :
    servicePayloadKey c1 e1 b1 ≠ servicePayloadKey c2 e2 b2 := by
  intro hkey
  have hd := congrArg String.data hkey
  rw [servicePayloadKey_data, servicePayloadKey_data] at hd
  have hd2 := List.append_cancel_left hd
  have hn := congrArg chopSlash hd2
  rw [chopSlash_append _ _ (slashFree_forall _ h1),
      chopSlash_append _ _ (slashFree_forall _ h2)] at hn
  have hn1 := congrArg Prod.fst hn
  have hrest1 := congrArg Prod.snd hn
  simp only at hn1 hrest1
  have he := congrArg chopSlash hrest1
  rw [chopSlash_append _ _ (slashFree_forall _ h3),
      chopSlash_append _ _ (slashFree_forall _ h4)] at he
  have he1 := congrArg Prod.fst he
  have hrest2 := congrArg Prod.snd he
  simp only at he1 hrest2
  have hv := congrArg chopSlash hrest2
  rw [chopSlash_append _ _ (slashFree_forall _ h5),
      chopSlash_append _ _ (slashFree_forall _ h6)] at hv
  have hv1 := congrArg Prod.fst hv
  have hrest3 := congrArg Prod.snd hv
  simp only at hv1 hrest3
  have hdig : (sha256Hex b1).data = (sha256Hex b2).data :=
    List.append_cancel_right hrest3
  rcases hdiff with h | h | h | h
  · exact h (String.ext hn1)
  · exact h (String.ext he1)
  · exact h (String.ext hv1)
  · exact h (String.ext hdig)

/-- C5 amended witness: two slash-free tuples differing in service name
derive different keys for the same content. -/
theorem servicePayloadKey_injective_witness :
    servicePayloadKey ⟨"svc", "1.0"⟩ ⟨"prod"⟩ [] ≠
      servicePayloadKey ⟨"other", "1.0"⟩ ⟨"prod"⟩ [] :=
  servicePayloadKey_injective ⟨"svc", "1.0"⟩ ⟨"other", "1.0"⟩ ⟨"prod"⟩ ⟨"prod"⟩
    [] [] (by decide) (by decide) (by decide) (by decide) (by decide) (by decide)
    (Or.inl (by decide))

end Porter
